import Mathlib

/-!
Shallow embedding of `src/main.rs` from the `wgpu_pbr` repository: a minimal
wgpu/winit application that initializes a device, a surface, one render
pipeline and two static buffers (`App::new`), and redraws a constant indexed
mesh on every redraw-requested event (`App::render`, driven by `run`).

GPU handles (device, queue, surface, shader modules) are opaque in the
embedding; descriptors, recorded commands and the event-loop step are
translated field by field from the source.  Fallible wgpu calls that the
source `unwrap`s are modelled as `Option`-returning functions over an
environment `Env` of backend capabilities: `none` models the process abort
caused by a failed `unwrap`.
-/

/-- wgpu device feature flags (only the flags relevant to this program are
enumerated; `spirvShaderPassthrough` models `Features::SPIRV_SHADER_PASSTHROUGH`). -/
inductive Feature where
  | spirvShaderPassthrough
  | depthClipControl
  | timestampQuery
  deriving DecidableEq, Repr

/-- wgpu resource limits; only a representative field is modelled, enough to
state that the device request leaves limits at their default. -/
structure Limits where
  max_bind_groups : Nat
  deriving DecidableEq, Repr

/-- `Limits::default()` in wgpu. -/
def Limits.default : Limits := { max_bind_groups := 4 }

/-- `wgpu::DeviceDescriptor`: label, required features, required limits. -/
structure DeviceDescriptor where
  label : Option String
  required_features : List Feature
  required_limits : Limits
  deriving DecidableEq, Repr

/-- `DeviceDescriptor::default()`: no label, no required features, default limits. -/
def DeviceDescriptor.default : DeviceDescriptor :=
  { label := none, required_features := [], required_limits := Limits.default }

/-- The device descriptor built in `App::new`:
`DeviceDescriptor { required_features: Features::SPIRV_SHADER_PASSTHROUGH, ..Default::default() }`. -/
def used_device_descriptor : DeviceDescriptor :=
  { DeviceDescriptor.default with required_features := [Feature.spirvShaderPassthrough] }

/-- Surface pixel formats (a representative enumeration of `wgpu::TextureFormat`). -/
inductive TextureFormat where
  | bgra8UnormSrgb
  | rgba8UnormSrgb
  | rgba16Float
  deriving DecidableEq, Repr

/-- `wgpu::SurfaceConfiguration`, as produced by `Surface::get_default_config`. -/
structure SurfaceConfiguration where
  format : TextureFormat
  width : Nat
  height : Nat
  deriving DecidableEq, Repr

/-- Opaque logical-device handle. -/
inductive Device where
  | mk
  deriving DecidableEq, Repr

/-- Opaque command-queue handle. -/
inductive Queue where
  | mk
  deriving DecidableEq, Repr

/-- Opaque presentation-surface handle. -/
inductive Surface where
  | mk
  deriving DecidableEq, Repr

/-- Opaque adapter handle. -/
inductive Adapter where
  | mk
  deriving DecidableEq, Repr

/-- The two shader modules built from the embedded SPIR-V binaries
(`vs.spv`, `fs.spv`). -/
inductive ShaderModule where
  | vs
  | fs
  deriving DecidableEq, Repr

/-- `wgpu::VertexFormat` (relevant cases). -/
inductive VertexFormat where
  | float32x2
  | float32x3
  | float32x4
  deriving DecidableEq, Repr

/-- `wgpu::VertexStepMode`.  `instanceStep` models `VertexStepMode::Instance`
(`instance` is a Lean keyword). -/
inductive VertexStepMode where
  | vertex
  | instanceStep
  deriving DecidableEq, Repr

/-- `wgpu::VertexAttribute`. -/
structure VertexAttribute where
  format : VertexFormat
  offset : Nat
  shader_location : Nat
  deriving DecidableEq, Repr

/-- `wgpu::VertexBufferLayout`. -/
structure VertexBufferLayout where
  array_stride : Nat
  step_mode : VertexStepMode
  attributes : List VertexAttribute
  deriving DecidableEq, Repr

/-- `wgpu::VertexState`. -/
structure VertexState where
  module : ShaderModule
  entry_point : String
  buffers : List VertexBufferLayout
  deriving DecidableEq, Repr

/-- `wgpu::PrimitiveTopology` (relevant cases). -/
inductive PrimitiveTopology where
  | pointList
  | lineList
  | triangleList
  | triangleStrip
  deriving DecidableEq, Repr

/-- `wgpu::IndexFormat`. -/
inductive IndexFormat where
  | uint16
  | uint32
  deriving DecidableEq, Repr

/-- `wgpu::FrontFace`. -/
inductive FrontFace where
  | ccw
  | cw
  deriving DecidableEq, Repr

/-- `wgpu::Face`. -/
inductive Face where
  | front
  | back
  deriving DecidableEq, Repr

/-- `wgpu::PolygonMode`. -/
inductive PolygonMode where
  | fill
  | line
  | point
  deriving DecidableEq, Repr

/-- `wgpu::PrimitiveState`. -/
structure PrimitiveState where
  topology : PrimitiveTopology
  strip_index_format : Option IndexFormat
  front_face : FrontFace
  cull_mode : Option Face
  unclipped_depth : Bool
  polygon_mode : PolygonMode
  conservative : Bool
  deriving DecidableEq, Repr

/-- `wgpu::DepthStencilState` (placeholder: the program never builds one). -/
structure DepthStencilState where
  format : TextureFormat
  deriving DecidableEq, Repr

/-- `wgpu::MultisampleState`. -/
structure MultisampleState where
  count : Nat
  mask : Nat
  alpha_to_coverage_enabled : Bool
  deriving DecidableEq, Repr

/-- `MultisampleState::default()`: single sample, all mask bits set (`!0u64`),
no alpha-to-coverage. -/
def MultisampleState.default : MultisampleState :=
  { count := 1, mask := 2 ^ 64 - 1, alpha_to_coverage_enabled := false }

/-- `wgpu::BlendFactor` (relevant cases). -/
inductive BlendFactor where
  | zero
  | one
  | srcAlpha
  | oneMinusSrcAlpha
  deriving DecidableEq, Repr

/-- `wgpu::BlendOperation` (relevant cases). -/
inductive BlendOperation where
  | add
  | subtract
  deriving DecidableEq, Repr

/-- `wgpu::BlendComponent`. -/
structure BlendComponent where
  src_factor : BlendFactor
  dst_factor : BlendFactor
  operation : BlendOperation
  deriving DecidableEq, Repr

/-- `BlendComponent::REPLACE`: source replaces destination. -/
def BlendComponent.REPLACE : BlendComponent :=
  { src_factor := BlendFactor.one, dst_factor := BlendFactor.zero,
    operation := BlendOperation.add }

/-- `wgpu::BlendState`. -/
structure BlendState where
  color : BlendComponent
  alpha : BlendComponent
  deriving DecidableEq, Repr

/-- `BlendState::REPLACE`. -/
def BlendState.REPLACE : BlendState :=
  { color := BlendComponent.REPLACE, alpha := BlendComponent.REPLACE }

/-- `wgpu::ColorWrites` as four channel-enable bits. -/
structure ColorWrites where
  r : Bool
  g : Bool
  b : Bool
  a : Bool
  deriving DecidableEq, Repr

/-- `ColorWrites::all()`: every channel writable. -/
def ColorWrites.all : ColorWrites := { r := true, g := true, b := true, a := true }

/-- `wgpu::ColorTargetState`. -/
structure ColorTargetState where
  format : TextureFormat
  blend : Option BlendState
  write_mask : ColorWrites
  deriving DecidableEq, Repr

/-- `wgpu::FragmentState`. -/
structure FragmentState where
  module : ShaderModule
  entry_point : String
  targets : List (Option ColorTargetState)
  deriving DecidableEq, Repr

/-- `wgpu::PipelineLayoutDescriptor`; the program passes empty bind-group and
push-constant lists. -/
structure PipelineLayoutDescriptor where
  label : Option String
  bind_group_layouts : List Unit
  push_constant_ranges : List Unit
  deriving DecidableEq, Repr

/-- The pipeline layout built in `App::new`: no label, no bind groups,
no push constants. -/
def pipeline_layout : PipelineLayoutDescriptor :=
  { label := none, bind_group_layouts := [], push_constant_ranges := [] }

/-- `wgpu::RenderPipelineDescriptor`. -/
structure RenderPipelineDescriptor where
  label : Option String
  layout : Option PipelineLayoutDescriptor
  vertex : VertexState
  primitive : PrimitiveState
  depth_stencil : Option DepthStencilState
  multisample : MultisampleState
  fragment : Option FragmentState
  multiview : Option Nat
  deriving DecidableEq, Repr

/-- The render-pipeline descriptor built in `App::new` (source lines 72-110),
parametrized by the surface configuration's format.  The vertex stride is
`size_of::<f32>() * 3`. -/
def renderPipelineDescriptor (fmt : TextureFormat) : RenderPipelineDescriptor :=
  { label := none
    layout := some pipeline_layout
    vertex :=
      { module := ShaderModule.vs
        entry_point := "main"
        buffers :=
          [{ array_stride := 4 * 3
             step_mode := VertexStepMode.vertex
             attributes :=
               [{ format := VertexFormat.float32x3
                  offset := 0
                  shader_location := 0 }] }] }
    primitive :=
      { topology := PrimitiveTopology.triangleList
        strip_index_format := none
        front_face := FrontFace.ccw
        cull_mode := some Face.back
        unclipped_depth := false
        polygon_mode := PolygonMode.fill
        conservative := false }
    depth_stencil := none
    multisample := MultisampleState.default
    fragment :=
      some
        { module := ShaderModule.fs
          entry_point := "main"
          targets :=
            [some
              { format := fmt
                blend := some BlendState.REPLACE
                write_mask := ColorWrites.all }] }
    multiview := none }

/-- `wgpu::BufferUsages` (relevant flags, each buffer here uses exactly one). -/
inductive BufferUsages where
  | vertex
  | index
  | uniform
  deriving DecidableEq, Repr

/-- A 3-component floating-point position; components are modelled as exact
rationals (the source stores `f32` triples). -/
abbrev Vertex : Type := ℚ × ℚ × ℚ

/-- A GPU buffer with its initial contents and usage flag, as created by
`Device::create_buffer_init`. -/
structure Buffer (α : Type) where
  contents : List α
  usage : BufferUsages
  deriving DecidableEq

namespace vertices

/-- Modelled from the spec: the module `src/vertices.rs` (declared by
`mod vertices;` in `src/main.rs`) is not under `src/`.  Spec section 3
describes a fixed, compile-time-constant ordered sequence of 3-component
floating-point positions, and section 8's scenario uses 3 unique vertices
forming one counter-clockwise triangle. -/
def VERTEX_DATA : List Vertex :=
  [((0 : ℚ), (1 : ℚ)/2, (0 : ℚ)),
   (-(1 : ℚ)/2, -(1 : ℚ)/2, (0 : ℚ)),
   ((1 : ℚ)/2, -(1 : ℚ)/2, (0 : ℚ))]

/-- Modelled from the spec: the constant index sequence of `src/vertices.rs`
(not under `src/`).  Spec section 8's scenario gives indices `[0, 1, 2]` over
3 unique vertices, unsigned 32-bit integers per spec section 3. -/
def INDEX_DATA : List Nat := [0, 1, 2]

end vertices

/-- The `App` struct of `src/main.rs`: device, queue, surface, pipeline and
the two static buffers. -/
structure App where
  device : Device
  queue : Queue
  surface : Surface
  pipeline : RenderPipelineDescriptor
  vbo : Buffer Vertex
  ibo : Buffer Nat
  deriving DecidableEq

/-- The backend environment `App::new` and `App::render` interact with: which
fallible wgpu calls succeed, the adapter's supported features, the surface's
default format, and the window's inner size. -/
structure Env where
  adapterAvailable : Bool
  adapterFeatures : List Feature
  surfaceCreatable : Bool
  defaultConfigAvailable : Bool
  surfaceFormat : TextureFormat
  width : Nat
  height : Nat
  deriving DecidableEq

/-- `Instance::request_adapter` with default options: `none` models the
`unwrap` panic when no adapter is found. -/
def request_adapter (env : Env) : Option Adapter :=
  if env.adapterAvailable then some Adapter.mk else none

/-- `Adapter::request_device`: succeeds exactly when every required feature is
supported by the adapter; `none` models the `unwrap` panic on rejection. -/
def request_device (env : Env) (desc : DeviceDescriptor) : Option (Device × Queue) :=
  if desc.required_features.all (fun f => env.adapterFeatures.contains f) then
    some (Device.mk, Queue.mk)
  else none

/-- `Instance::create_surface`: `none` models the `unwrap` panic on failure. -/
def create_surface (env : Env) : Option Surface :=
  if env.surfaceCreatable then some Surface.mk else none

/-- `Surface::get_default_config`: `none` models the `unwrap` panic when the
surface is not supported by the adapter. -/
def get_default_config (env : Env) : Option SurfaceConfiguration :=
  if env.defaultConfigAvailable then
    some { format := env.surfaceFormat, width := env.width, height := env.height }
  else none

/-- `App::new` (source lines 24-120): request adapter, request device with the
SPIRV-passthrough feature, create and configure the surface with its default
configuration, create the vertex and index buffers from the constant data,
build the shader modules, layout and render pipeline.  `none` models the
process abort from any failed `unwrap`. -/
def App.new (env : Env) : Option App :=
  match request_adapter env with
  | none => none
  | some _adapter =>
    match request_device env used_device_descriptor with
    | none => none
    | some (device, queue) =>
      match create_surface env with
      | none => none
      | some surface =>
        match get_default_config env with
        | none => none
        | some surface_config =>
          let vbo : Buffer Vertex :=
            { contents := vertices.VERTEX_DATA, usage := BufferUsages.vertex }
          let ibo : Buffer Nat :=
            { contents := vertices.INDEX_DATA, usage := BufferUsages.index }
          some
            { device := device
              queue := queue
              surface := surface
              pipeline := renderPipelineDescriptor surface_config.format
              vbo := vbo
              ibo := ibo }

/-- The clear color of the render pass: opaque blue,
`Color { r: 0.0, g: 0.0, b: 1.0, a: 1.0 }`. -/
structure Color where
  r : ℚ
  g : ℚ
  b : ℚ
  a : ℚ
  deriving DecidableEq, Repr

/-- `wgpu::LoadOp` for the color attachment. -/
inductive LoadOp where
  | clear (c : Color)
  | load
  deriving DecidableEq, Repr

/-- `wgpu::StoreOp`. -/
inductive StoreOp where
  | store
  | discard
  deriving DecidableEq, Repr

/-- One observable command of a frame: the render-pass commands recorded by
`App::render` in order, followed by the queue submit and the present call.
`drawIndexed lo hi base ilo ihi` models
`draw_indexed(lo..hi, base, ilo..ihi)`. -/
inductive RenderAction where
  | beginRenderPass (ld : LoadOp) (st : StoreOp)
  | setPipeline
  | setVertexBuffer (slot : Nat)
  | setIndexBuffer (fmt : IndexFormat)
  | drawIndexed (lo hi : Nat) (base : Int) (ilo ihi : Nat)
  | submit
  | present
  deriving DecidableEq, Repr

/-- The command sequence recorded by the body of `App::render` as a function
of the draw count `INDEX_DATA.len()` it uses: one render pass clearing the
color target to opaque blue and storing it, pipeline bind, vertex-buffer bind
at slot 0, index-buffer bind with `IndexFormat::Uint32`, one indexed draw over
`0..index_count` with base vertex 0 and instances `0..1`, then submit and
present. -/
def recordFrame (index_count : Nat) : List RenderAction :=
  [RenderAction.beginRenderPass
      (LoadOp.clear { r := 0, g := 0, b := 1, a := 1 }) StoreOp.store,
   RenderAction.setPipeline,
   RenderAction.setVertexBuffer 0,
   RenderAction.setIndexBuffer IndexFormat.uint32,
   RenderAction.drawIndexed 0 index_count 0 0 1,
   RenderAction.submit,
   RenderAction.present]

/-- `App::render` with the constant index sequence left as a parameter: the
source computes its draw count as `vertices::INDEX_DATA.len()`, so the
recorded frame is this function applied to the actual constant.
`surface_available` is whether `Surface::get_current_texture` succeeds;
`none` models the `unwrap` panic when it does not.  The returned `App` is the
state after the call (`render` takes `&mut self` but assigns no field). -/
def App.renderWith (index_data : List Nat) (a : App) (surface_available : Bool) :
    Option (App × List RenderAction) :=
  if surface_available then some (a, recordFrame index_data.length) else none

/-- `App::render` (source lines 122-157). -/
def App.render (a : App) (surface_available : Bool) : Option (App × List RenderAction) :=
  a.renderWith vertices.INDEX_DATA surface_available

/-- `n` consecutive successful calls to `App::render`: the final state and the
list of recorded frame traces in order. -/
def App.renderN : App → Nat → App × List (List RenderAction)
  | a, 0 => (a, [])
  | a, n + 1 =>
    match a.render true with
    | some (a1, tr) =>
      let rest := a1.renderN n
      (rest.1, tr :: rest.2)
    | none => (a, [])

/-- `winit` window events (relevant cases; `other` stands for every window
event the handler ignores). -/
inductive WindowEvent where
  | redrawRequested
  | closeRequested
  | other
  deriving DecidableEq, Repr

/-- `winit` events delivered to the loop closure: a window event carrying its
window id, or any non-window event (device events, timer wakeups, ...). -/
inductive Event where
  | windowEvent (window_id : Nat) (event : WindowEvent)
  | other
  deriving DecidableEq, Repr

/-- `winit::event_loop::ControlFlow` (relevant cases); `wait_duration ms`
models `ControlFlow::wait_duration(Duration::from_millis(ms))`. -/
inductive ControlFlow where
  | poll
  | wait
  | wait_duration (ms : Nat)
  deriving DecidableEq, Repr

/-- The state the event-loop closure of `run` (source lines 171-191) closes
over and the loop maintains: the app, the captured `main_window_id`, whether
`elwt.exit()` has been called, the traces of the renders performed so far, and
the control flow last set. -/
structure LoopCtx where
  app : App
  main_window_id : Nat
  exiting : Bool
  renders : List (List RenderAction)
  control_flow : ControlFlow
  deriving DecidableEq

/-- `EventLoopWindowTarget::set_control_flow`. -/
def set_control_flow (ctx : LoopCtx) (cf : ControlFlow) : LoopCtx :=
  { ctx with control_flow := cf }

/-- One iteration of the event-loop closure in `run`: set the control flow to
wake after at most 16 ms, then dispatch on the event.  A window event whose id
equals `main_window_id` is matched: redraw-requested calls `app.render()`
(`none` models the panic when the surface image is unavailable),
close-requested calls `elwt.exit()`, everything else falls to `_ => {}`; any
other event falls to the outer `_ => {}`. -/
def run_step (ctx : LoopCtx) (surface_available : Bool) (ev : Event) :
    Option LoopCtx :=
  let ctx := set_control_flow ctx (ControlFlow.wait_duration 16)
  match ev with
  | Event.windowEvent window_id event =>
    if window_id = ctx.main_window_id then
      match event with
      | WindowEvent.redrawRequested =>
        match ctx.app.render surface_available with
        | some (a, tr) => some { ctx with app := a, renders := ctx.renders ++ [tr] }
        | none => none
      | WindowEvent.closeRequested => some { ctx with exiting := true }
      | WindowEvent.other => some ctx
    else some ctx
  | Event.other => some ctx

/-- A fully capable environment: every fallible call succeeds and the adapter
supports the SPIRV-passthrough feature. -/
def env0 : Env :=
  { adapterAvailable := true
    adapterFeatures := [Feature.spirvShaderPassthrough]
    surfaceCreatable := true
    defaultConfigAvailable := true
    surfaceFormat := TextureFormat.bgra8UnormSrgb
    width := 640
    height := 480 }

/-- The app produced by `App.new env0`. -/
def app0 : App :=
  { device := Device.mk
    queue := Queue.mk
    surface := Surface.mk
    pipeline := renderPipelineDescriptor TextureFormat.bgra8UnormSrgb
    vbo := { contents := vertices.VERTEX_DATA, usage := BufferUsages.vertex }
    ibo := { contents := vertices.INDEX_DATA, usage := BufferUsages.index } }

/-- A concrete loop state in the `Running` phase. -/
def ctx0 : LoopCtx :=
  { app := app0
    main_window_id := 1
    exiting := false
    renders := []
    control_flow := ControlFlow.poll }

/-- One successful render returns the caller's state unchanged together with
the fixed frame trace. -/
theorem render_true_eq (a : App) :
    a.render true = some (a, recordFrame vertices.INDEX_DATA.length) := by
  simp [App.render, App.renderWith]

/-- `n` successful renders leave the app state unchanged and record `n`
copies of the fixed frame trace. -/
theorem renderN_eq (a : App) (n : Nat) :
    a.renderN n = (a, List.replicate n (recordFrame vertices.INDEX_DATA.length)) := by
  induction n generalizing a with
  | zero => simp [App.renderN]
  | succ n ih => simp [App.renderN, render_true_eq, ih, List.replicate_succ]

/-- Any successfully constructed app has the fields `App::new` builds: the
two constant buffers and the pipeline for the surface's default format. -/
theorem new_some_fields (env : Env) (a : App) (h : App.new env = some a) :
    a.vbo = { contents := vertices.VERTEX_DATA, usage := BufferUsages.vertex } ∧
    a.ibo = { contents := vertices.INDEX_DATA, usage := BufferUsages.index } ∧
    a.pipeline = renderPipelineDescriptor env.surfaceFormat := by
  unfold App.new at h
  rcases hra : request_adapter env with - | ad
  · rw [hra] at h; simp at h
  rw [hra] at h
  rcases hrd : request_device env used_device_descriptor with - | dq
  · rw [hrd] at h; simp at h
  obtain ⟨dev, q⟩ := dq
  rw [hrd] at h
  rcases hcs : create_surface env with - | sf
  · rw [hcs] at h; simp at h
  rw [hcs] at h
  rcases hdc : get_default_config env with - | cfg
  · rw [hdc] at h; simp at h
  rw [hdc] at h
  have hfmt : cfg.format = env.surfaceFormat := by
    unfold get_default_config at hdc
    by_cases hd : env.defaultConfigAvailable <;> simp [hd] at hdc
    rw [← hdc]
  simp only [Option.some.injEq] at h
  subst h
  simp [hfmt]

/-- C1: after a successful `App::new`, every call to `App::render` records the
same fixed command sequence: one render pass clearing the color target to
opaque blue (r=0, g=0, b=1, a=1), then the pipeline bind, the vertex-buffer
bind at slot 0, the index-buffer bind with 32-bit index format, one indexed
draw over `0..INDEX_DATA.len()` with instances `0..1`, in that order, followed
by one queue submit and one present. -/
theorem render_after_init_fixed_sequence (env : Env) (a : App)
    (h : App.new env = some a) :
    a.render true =
      some (a,
        [RenderAction.beginRenderPass
            (LoadOp.clear { r := 0, g := 0, b := 1, a := 1 }) StoreOp.store,
         RenderAction.setPipeline,
         RenderAction.setVertexBuffer 0,
         RenderAction.setIndexBuffer IndexFormat.uint32,
         RenderAction.drawIndexed 0 vertices.INDEX_DATA.length 0 0 1,
         RenderAction.submit,
         RenderAction.present]) := by
  simp [App.render, App.renderWith, recordFrame]

/-- Witness for C1 at the concrete environment `env0`. -/
theorem render_after_init_fixed_sequence_witness :
    App.new env0 = some app0 ∧
    App.render app0 true =
      some (app0,
        [RenderAction.beginRenderPass
            (LoadOp.clear { r := 0, g := 0, b := 1, a := 1 }) StoreOp.store,
         RenderAction.setPipeline,
         RenderAction.setVertexBuffer 0,
         RenderAction.setIndexBuffer IndexFormat.uint32,
         RenderAction.drawIndexed 0 vertices.INDEX_DATA.length 0 0 1,
         RenderAction.submit,
         RenderAction.present]) :=
  ⟨by rfl, render_after_init_fixed_sequence env0 app0 (by rfl)⟩

/-- C4: a successfully constructed app holds the vertex buffer populated with
`VERTEX_DATA` and the index buffer populated with `INDEX_DATA` (each created
exactly once, in `App::new`, before any render); any number of renders leaves
both buffers unchanged; and every recorded frame's indexed draw uses exactly
`INDEX_DATA.len()` indices. -/
theorem buffers_written_once_draw_count (env : Env) (a : App)
    (h : App.new env = some a) (n : Nat) :
    a.vbo = { contents := vertices.VERTEX_DATA, usage := BufferUsages.vertex } ∧
    a.ibo = { contents := vertices.INDEX_DATA, usage := BufferUsages.index } ∧
    (a.renderN n).1.vbo = a.vbo ∧
    (a.renderN n).1.ibo = a.ibo ∧
    ∀ tr ∈ (a.renderN n).2,
      RenderAction.drawIndexed 0 vertices.INDEX_DATA.length 0 0 1 ∈ tr := by
  obtain ⟨hv, hi, -⟩ := new_some_fields env a h
  refine ⟨hv, hi, ?_, ?_, ?_⟩
  · rw [renderN_eq]
  · rw [renderN_eq]
  · intro tr htr
    rw [renderN_eq] at htr
    rcases List.eq_of_mem_replicate htr with rfl
    simp [recordFrame]

/-- Witness for C4 at `env0`, `app0` and two renders. -/
theorem buffers_written_once_draw_count_witness :
    app0.vbo = { contents := vertices.VERTEX_DATA, usage := BufferUsages.vertex } ∧
    app0.ibo = { contents := vertices.INDEX_DATA, usage := BufferUsages.index } ∧
    (app0.renderN 2).1.vbo = app0.vbo ∧
    (app0.renderN 2).1.ibo = app0.ibo ∧
    ∀ tr ∈ (app0.renderN 2).2,
      RenderAction.drawIndexed 0 vertices.INDEX_DATA.length 0 0 1 ∈ tr :=
  buffers_written_once_draw_count env0 app0 (by rfl) 2

/-- C6: `App::render` never modifies the program state: a successful call
returns the state unchanged, and `n` consecutive calls record `n` identical
command sequences. -/
theorem render_state_idempotent (a : App) (n : Nat) :
    a.render true = some (a, recordFrame vertices.INDEX_DATA.length) ∧
    a.renderN n = (a, List.replicate n (recordFrame vertices.INDEX_DATA.length)) :=
  ⟨render_true_eq a, renderN_eq a n⟩

/-- C7: with an empty constant index sequence, `App::render` still records the
render pass clearing the color target to opaque blue, and the indexed draw's
index range `0..0` is empty (a clear-only frame); the call still submits and
presents, and the state is unchanged. -/
theorem empty_index_sequence_clear_only (a : App) :
    App.renderWith [] a true =
      some (a,
        [RenderAction.beginRenderPass
            (LoadOp.clear { r := 0, g := 0, b := 1, a := 1 }) StoreOp.store,
         RenderAction.setPipeline,
         RenderAction.setVertexBuffer 0,
         RenderAction.setIndexBuffer IndexFormat.uint32,
         RenderAction.drawIndexed 0 0 0 0 1,
         RenderAction.submit,
         RenderAction.present]) := by
  simp [App.renderWith, recordFrame]

/-- An environment whose adapter request fails. -/
def env_no_adapter : Env := { env0 with adapterAvailable := false }

/-- An environment whose adapter lacks `SPIRV_SHADER_PASSTHROUGH`. -/
def env_no_feature : Env := { env0 with adapterFeatures := [] }

/-- C3: every failure in either error class aborts: if the adapter request,
the device request (feature unsupported), the surface creation or the default
surface configuration fails, `App::new` yields no app (models the process
abort of the failed `unwrap`), and if the surface image is unavailable,
`App::render` yields no continuation state (models the per-frame abort);
no error value or recovered state is ever produced. -/
theorem failures_abort_process (env : Env) (a : App)
    (h : env.adapterAvailable = false ∨
         Feature.spirvShaderPassthrough ∉ env.adapterFeatures ∨
         env.surfaceCreatable = false ∨
         env.defaultConfigAvailable = false) :
    App.new env = none ∧ a.render false = none := by
  refine ⟨?_, by simp [App.render, App.renderWith]⟩
  unfold App.new request_adapter request_device create_surface get_default_config
  rcases h with h | h | h | h
  · simp [h]
  · by_cases h1 : env.adapterAvailable <;>
      simp [h1, used_device_descriptor, DeviceDescriptor.default, h]
  · by_cases h1 : env.adapterAvailable <;>
      by_cases h2 : Feature.spirvShaderPassthrough ∈ env.adapterFeatures <;>
      simp [h1, h2, used_device_descriptor, DeviceDescriptor.default, h]
  · by_cases h1 : env.adapterAvailable <;>
      by_cases h2 : Feature.spirvShaderPassthrough ∈ env.adapterFeatures <;>
      by_cases h3 : env.surfaceCreatable <;>
      simp [h1, h2, h3, used_device_descriptor, DeviceDescriptor.default, h]

/-- Witness for C3: a failed adapter request aborts setup, and an unavailable
surface image aborts the frame. -/
theorem failures_abort_process_witness :
    App.new env_no_adapter = none ∧ app0.render false = none :=
  failures_abort_process env_no_adapter app0 (Or.inl rfl)

/-- C8: the device request made by `App::new` uses a descriptor whose required
features are exactly `SPIRV_SHADER_PASSTHROUGH`, with label and limits left at
their `DeviceDescriptor::default()` values, and an adapter lacking that
feature makes `App::new` abort. -/
theorem device_request_exactly_spirv_passthrough :
    used_device_descriptor.required_features = [Feature.spirvShaderPassthrough] ∧
    used_device_descriptor.label = DeviceDescriptor.default.label ∧
    used_device_descriptor.required_limits = DeviceDescriptor.default.required_limits ∧
    ∀ env : Env, Feature.spirvShaderPassthrough ∉ env.adapterFeatures →
      App.new env = none := by
  refine ⟨rfl, rfl, rfl, ?_⟩
  intro env h
  unfold App.new request_adapter request_device
  by_cases h1 : env.adapterAvailable <;>
    simp [h1, used_device_descriptor, DeviceDescriptor.default, h]

/-- Witness for C8 at an adapter with no features. -/
theorem device_request_exactly_spirv_passthrough_witness :
    App.new env_no_feature = none :=
  device_request_exactly_spirv_passthrough.2.2.2 env_no_feature (by decide)

/-- C5: the pipeline descriptor built by `App::new` has exactly the fixed
function state of the source for every surface format: one vertex buffer
layout with 12-byte stride, one `Float32x3` attribute at offset 0 and shader
location 0, per-vertex stepping; triangle-list topology, counter-clockwise
front face, back-face culling, fill mode; no depth/stencil; single-sample
default multisampling; one color target of the surface format with replace
blending and all channels writable. -/
theorem pipeline_fixed_function_state (fmt : TextureFormat) :
    (renderPipelineDescriptor fmt).vertex.buffers =
      [{ array_stride := 12
         step_mode := VertexStepMode.vertex
         attributes :=
           [{ format := VertexFormat.float32x3
              offset := 0
              shader_location := 0 }] }] ∧
    (renderPipelineDescriptor fmt).primitive =
      { topology := PrimitiveTopology.triangleList
        strip_index_format := none
        front_face := FrontFace.ccw
        cull_mode := some Face.back
        unclipped_depth := false
        polygon_mode := PolygonMode.fill
        conservative := false } ∧
    (renderPipelineDescriptor fmt).depth_stencil = none ∧
    (renderPipelineDescriptor fmt).multisample = MultisampleState.default ∧
    (renderPipelineDescriptor fmt).multisample.count = 1 ∧
    (renderPipelineDescriptor fmt).fragment =
      some
        { module := ShaderModule.fs
          entry_point := "main"
          targets :=
            [some
              { format := fmt
                blend := some BlendState.REPLACE
                write_mask := ColorWrites.all }] } :=
  ⟨rfl, rfl, rfl, rfl, rfl, rfl⟩

/-- A non-window event (including the 16 ms timer wakeup) only resets the
control flow. -/
theorem run_step_other (ctx : LoopCtx) (avail : Bool) :
    run_step ctx avail Event.other =
      some { ctx with control_flow := ControlFlow.wait_duration 16 } := rfl

/-- A window event for a foreign window id only resets the control flow. -/
theorem run_step_wrong_id (ctx : LoopCtx) (avail : Bool) (wid : Nat)
    (we : WindowEvent) (h : wid ≠ ctx.main_window_id) :
    run_step ctx avail (Event.windowEvent wid we) =
      some { ctx with control_flow := ControlFlow.wait_duration 16 } := by
  simp [run_step, set_control_flow, h]

/-- A redraw request for the main window with the surface image available
performs exactly one render. -/
theorem run_step_redraw_main (ctx : LoopCtx) :
    run_step ctx true (Event.windowEvent ctx.main_window_id WindowEvent.redrawRequested) =
      some { ctx with control_flow := ControlFlow.wait_duration 16,
                      renders := ctx.renders ++ [recordFrame vertices.INDEX_DATA.length] } := by
  simp [run_step, set_control_flow, render_true_eq]

/-- A redraw request for the main window with the surface image unavailable
aborts (the `unwrap` in `App::render` panics). -/
theorem run_step_redraw_main_fail (ctx : LoopCtx) :
    run_step ctx false (Event.windowEvent ctx.main_window_id WindowEvent.redrawRequested) =
      none := by
  simp [run_step, set_control_flow, App.render, App.renderWith]

/-- A close request for the main window sets the exit flag. -/
theorem run_step_close_main (ctx : LoopCtx) (avail : Bool) :
    run_step ctx avail (Event.windowEvent ctx.main_window_id WindowEvent.closeRequested) =
      some { ctx with control_flow := ControlFlow.wait_duration 16, exiting := true } := by
  simp [run_step, set_control_flow]

/-- Any other window event for the main window only resets the control flow. -/
theorem run_step_otherwe_main (ctx : LoopCtx) (avail : Bool) :
    run_step ctx avail (Event.windowEvent ctx.main_window_id WindowEvent.other) =
      some { ctx with control_flow := ControlFlow.wait_duration 16 } := by
  simp [run_step, set_control_flow]

/-- C2: the event loop is a two-state machine over the exit flag, starting in
`Running` (`exiting = false`): a redraw-requested event for the main window
invokes one render and stays in `Running`; a close-requested event for the
main window transitions to `Closing` (`exiting = true`); every other event
leaves the app, the renders and the exit flag unchanged. -/
theorem event_loop_two_state_machine (ctx : LoopCtx) (h : ctx.exiting = false) :
    run_step ctx true (Event.windowEvent ctx.main_window_id WindowEvent.redrawRequested) =
      some { ctx with control_flow := ControlFlow.wait_duration 16,
                      renders := ctx.renders ++ [recordFrame vertices.INDEX_DATA.length],
                      exiting := false } ∧
    run_step ctx true (Event.windowEvent ctx.main_window_id WindowEvent.closeRequested) =
      some { ctx with control_flow := ControlFlow.wait_duration 16, exiting := true } ∧
    (∀ wid we, wid ≠ ctx.main_window_id ∨ we = WindowEvent.other →
      run_step ctx true (Event.windowEvent wid we) =
        some { ctx with control_flow := ControlFlow.wait_duration 16 }) ∧
    run_step ctx true Event.other =
      some { ctx with control_flow := ControlFlow.wait_duration 16 } := by
  obtain ⟨app, mwid, ex, rnd, cf⟩ := ctx
  cases h
  refine ⟨run_step_redraw_main _, run_step_close_main _ _, ?_, run_step_other _ _⟩
  intro wid we hw
  rcases hw with hw | hw
  · exact run_step_wrong_id _ _ _ _ hw
  · subst hw
    by_cases hww : wid = mwid
    · subst hww
      exact run_step_otherwe_main _ _
    · exact run_step_wrong_id _ _ _ _ hww

/-- Witness for C2 at the concrete state `ctx0`. -/
theorem event_loop_two_state_machine_witness :
    run_step ctx0 true (Event.windowEvent ctx0.main_window_id WindowEvent.redrawRequested) =
      some { ctx0 with control_flow := ControlFlow.wait_duration 16,
                       renders := ctx0.renders ++ [recordFrame vertices.INDEX_DATA.length],
                       exiting := false } ∧
    run_step ctx0 true (Event.windowEvent ctx0.main_window_id WindowEvent.closeRequested) =
      some { ctx0 with control_flow := ControlFlow.wait_duration 16, exiting := true } :=
  ⟨(event_loop_two_state_machine ctx0 rfl).1,
   (event_loop_two_state_machine ctx0 rfl).2.1⟩

/-- C9: every completed loop iteration sets the control flow to wake after at
most 16 ms, and the number of recorded renders grows exactly when the incoming
event is a redraw request for the main window — the loop never schedules a
render from any other event (in particular not from a timer wakeup, which is a
non-window event). -/
theorem loop_throttled_renders_externally_driven (ctx ctx' : LoopCtx)
    (avail : Bool) (ev : Event) (h : run_step ctx avail ev = some ctx') :
    ctx'.control_flow = ControlFlow.wait_duration 16 ∧
    ctx'.renders.length = ctx.renders.length +
      (if ev = Event.windowEvent ctx.main_window_id WindowEvent.redrawRequested
       then 1 else 0) := by
  cases ev with
  | other =>
    rw [run_step_other] at h
    injection h with h
    subst h
    simp
  | windowEvent wid we =>
    by_cases hw : wid = ctx.main_window_id
    · subst hw
      cases we with
      | redrawRequested =>
        cases avail with
        | false =>
          rw [run_step_redraw_main_fail] at h
          exact absurd h (by simp)
        | true =>
          rw [run_step_redraw_main] at h
          injection h with h
          subst h
          simp
      | closeRequested =>
        rw [run_step_close_main] at h
        injection h with h
        subst h
        simp
      | other =>
        rw [run_step_otherwe_main] at h
        injection h with h
        subst h
        simp
    · rw [run_step_wrong_id _ _ _ _ hw] at h
      injection h with h
      subst h
      simp [hw]

/-- Witness for C9 at `ctx0` and a non-window (timer) event. -/
theorem loop_throttled_renders_externally_driven_witness :
    ({ ctx0 with control_flow := ControlFlow.wait_duration 16 } : LoopCtx).control_flow =
      ControlFlow.wait_duration 16 ∧
    ({ ctx0 with control_flow := ControlFlow.wait_duration 16 } : LoopCtx).renders.length =
      ctx0.renders.length +
        (if Event.other = Event.windowEvent ctx0.main_window_id WindowEvent.redrawRequested
         then 1 else 0) :=
  loop_throttled_renders_externally_driven ctx0
    { ctx0 with control_flow := ControlFlow.wait_duration 16 } true Event.other rfl

/-- C10: the handler filters on window identity: a window event carrying a
foreign window id — including a close request — is a no-op beyond the control
flow reset; a render happens only for a redraw request with the main window's
id; the loop exits only from a close request with the main window's id. -/
theorem window_identity_filter (ctx : LoopCtx) (avail : Bool) (wid : Nat)
    (we : WindowEvent) (h : wid ≠ ctx.main_window_id) :
    run_step ctx avail (Event.windowEvent wid we) =
      some { ctx with control_flow := ControlFlow.wait_duration 16 } ∧
    (∀ ctx' ev, run_step ctx avail ev = some ctx' → ctx'.renders ≠ ctx.renders →
      ev = Event.windowEvent ctx.main_window_id WindowEvent.redrawRequested) ∧
    (∀ ctx' ev, run_step ctx avail ev = some ctx' → ctx'.exiting = true →
      ctx.exiting = true ∨
        ev = Event.windowEvent ctx.main_window_id WindowEvent.closeRequested) := by
  refine ⟨run_step_wrong_id ctx avail wid we h, ?_, ?_⟩
  · intro ctx' ev hstep hne
    cases ev with
    | other =>
      rw [run_step_other] at hstep
      injection hstep with hh
      subst hh
      simp at hne
    | windowEvent w e =>
      by_cases hww : w = ctx.main_window_id
      · subst hww
        cases e with
        | redrawRequested => rfl
        | closeRequested =>
          rw [run_step_close_main] at hstep
          injection hstep with hh
          subst hh
          simp at hne
        | other =>
          rw [run_step_otherwe_main] at hstep
          injection hstep with hh
          subst hh
          simp at hne
      · rw [run_step_wrong_id _ _ _ _ hww] at hstep
        injection hstep with hh
        subst hh
        simp at hne
  · intro ctx' ev hstep hex
    cases ev with
    | other =>
      rw [run_step_other] at hstep
      injection hstep with hh
      subst hh
      exact Or.inl hex
    | windowEvent w e =>
      by_cases hww : w = ctx.main_window_id
      · subst hww
        cases e with
        | redrawRequested =>
          cases avail with
          | false =>
            rw [run_step_redraw_main_fail] at hstep
            exact absurd hstep (by simp)
          | true =>
            rw [run_step_redraw_main] at hstep
            injection hstep with hh
            subst hh
            exact Or.inl hex
        | closeRequested => exact Or.inr rfl
        | other =>
          rw [run_step_otherwe_main] at hstep
          injection hstep with hh
          subst hh
          exact Or.inl hex
      · rw [run_step_wrong_id _ _ _ _ hww] at hstep
        injection hstep with hh
        subst hh
        exact Or.inl hex

/-- Witness for C10: a close request carrying a foreign window id is ignored. -/
theorem window_identity_filter_witness :
    run_step ctx0 true (Event.windowEvent 99 WindowEvent.closeRequested) =
      some { ctx0 with control_flow := ControlFlow.wait_duration 16 } :=
  (window_identity_filter ctx0 true 99 WindowEvent.closeRequested (by decide)).1
